import Mathlib

/-!
Shallow embedding of the `TPLString` class declared in
`src/TPList/TPLString.h` (XTBook / mkxtbwikiplexus).

The repository excerpt contains only the header: the class declares
  - `TPLString()`                       (default constructor)
  - `TPLString(const char *)`           (construction from a C string)
  - `TPLString(const TPLString *)`      (copy construction from a pointer)
  - `const char *UTF8String() const`
  - `bool isEqualToString(TPLString *) const`
  - `bool isEqualToUTF8String(const char *) const`
  - `TPLUInteger length() const`
backed by a single private field `std::string m_string`.

The method bodies (`TPLString.cpp`) are not part of the provided sources,
so every operation below is modelled from the specification's words.

Modelling conventions:
  - a byte is a `Nat` (the value of the `char`, taken as an octet);
  - a C string (`const char *`) that may be null is `Option (List Nat)`,
    `none` for a null pointer and `some bs` for a valid null-terminated
    buffer whose bytes before the terminator are `bs`;
  - a `TPLString *` argument that may be null is `Option TPLString`;
  - `std::string` content is `List Nat`;
  - `TPLUInteger` is `Nat`;
  - a `const` member function is also given a state-passing variant
    returning `(result, receiver after the call)`, to express that the
    call leaves the receiver's content untouched.
-/

/-- The `TPLString` object: its only data member is `m_string`
(`std::string m_string;` in the header). -/
structure TPLString where
  m_string : List Nat
deriving DecidableEq, Repr

namespace TPLString

/-- Modelled from the spec: the missing body of `TPLString()`.
"Construct (empty) — no inputs; result: an instance whose content is the
empty sequence." -/
def mkEmpty : TPLString := ⟨[]⟩

/-- Modelled from the spec: the missing body of `TPLString(const char *)`.
"Result: content set to a copy of the referenced bytes (or to empty
content if the input pointer is null — this edge case must be explicitly
handled)." -/
def fromUTF8 (p : Option (List Nat)) : TPLString :=
  match p with
  | none => ⟨[]⟩
  | some bs => ⟨bs⟩

/-- Modelled from the spec: the missing body of
`TPLString(const TPLString *)`. "Construct (copy) — result: content set
to a duplicate of the other instance's content at call time; no
aliasing." The spec requires the other instance to be live for the call. -/
def fromString (other : TPLString) : TPLString :=
  ⟨other.m_string⟩

/-- Modelled from the spec: the missing body of `UTF8String()`.
"Access content — result: a read-only view of the content as a
null-terminated byte sequence; no side effects." -/
def UTF8String (s : TPLString) : List Nat :=
  s.m_string

/-- Modelled from the spec: the missing body of `isEqualToString`.
"Equality against another instance — input nullable; if the reference is
null the result is false, not an error. Result: true iff both instances'
content sequences are byte-for-byte identical." -/
def isEqualToString (s : TPLString) (other : Option TPLString) : Bool :=
  match other with
  | none => false
  | some t => s.m_string == t.m_string

/-- Modelled from the spec: the missing body of `isEqualToUTF8String`.
"Equality against a raw byte sequence — nullable; null input yields
false, never a crash. Result: true iff the instance's content matches
the given sequence exactly." -/
def isEqualToUTF8String (s : TPLString) (p : Option (List Nat)) : Bool :=
  match p with
  | none => false
  | some bs => s.m_string == bs

/-- Modelled from the spec: the missing body of `length()`.
"Length — result: count of bytes in the content (byte length, not a
decoded character count). No side effects." -/
def length (s : TPLString) : Nat :=
  s.m_string.length

/-- State-passing variant of the `const` method `UTF8String`:
returns the result together with the receiver after the call. -/
def UTF8StringSt (s : TPLString) : List Nat × TPLString :=
  (s.UTF8String, s)

/-- State-passing variant of the `const` method `isEqualToString`. -/
def isEqualToStringSt (s : TPLString) (other : Option TPLString) :
    Bool × TPLString :=
  (s.isEqualToString other, s)

/-- State-passing variant of the `const` method `isEqualToUTF8String`. -/
def isEqualToUTF8StringSt (s : TPLString) (p : Option (List Nat)) :
    Bool × TPLString :=
  (s.isEqualToUTF8String p, s)

/-- State-passing variant of the `const` method `length`. -/
def lengthSt (s : TPLString) : Nat × TPLString :=
  (s.length, s)

end TPLString

/-- **C1.** For every byte sequence `s`, constructing a `TPLString` from `s`
via the C-string constructor and then calling `UTF8String()` returns a
sequence byte-equal to `s`; the constructor takes the value of the
caller's buffer (a copy, not an alias), so the stored content is exactly
`s` and independent of the buffer afterwards. -/
theorem c1_construct_then_access_roundtrip (s : List Nat) :
    (TPLString.fromUTF8 (some s)).UTF8String = s ∧
    (TPLString.fromUTF8 (some s)).m_string = s := by
  constructor <;> rfl

/-- **C2.** `isEqualToString` on a non-null argument is true iff the two
content sequences have the same length and identical bytes at every
position; `isEqualToUTF8String` on a non-null argument is true iff the
content matches the given sequence exactly; both are pure (their
state-passing variants leave the receiver unchanged). -/
theorem c2_equality_iff_byte_equal (a b : TPLString) (s : List Nat) :
    (a.isEqualToString (some b) = true ↔
      (a.m_string.length = b.m_string.length ∧
        ∀ i : Nat, ∀ hi : i < a.m_string.length,
          ∀ hj : i < b.m_string.length,
          a.m_string.get ⟨i, hi⟩ = b.m_string.get ⟨i, hj⟩)) ∧
    (a.isEqualToUTF8String (some s) = true ↔ a.m_string = s) ∧
    (a.isEqualToStringSt (some b)).2 = a ∧
    (a.isEqualToUTF8StringSt (some s)).2 = a := by
  refine ⟨?_, ?_, rfl, rfl⟩
  · simp only [TPLString.isEqualToString, beq_iff_eq]
    obtain ⟨la⟩ := a
    obtain ⟨lb⟩ := b
    show la = lb ↔
      (la.length = lb.length ∧
        ∀ i : Nat, ∀ hi : i < la.length, ∀ hj : i < lb.length,
          la.get ⟨i, hi⟩ = lb.get ⟨i, hj⟩)
    constructor
    · intro h
      subst h
      exact ⟨rfl, fun i hi hj => rfl⟩
    · rintro ⟨hlen, hget⟩
      exact List.ext_get hlen hget
  · simp [TPLString.isEqualToUTF8String]

/-- **C2 witness.** The equality characterisation evaluated at concrete
instances. -/
theorem c2_equality_iff_byte_equal_witness :
    ((TPLString.mk [104, 105]).isEqualToString (some (TPLString.mk [104, 105]))
        = true ↔
      ((TPLString.mk [104, 105]).m_string.length
          = (TPLString.mk [104, 105]).m_string.length ∧
        ∀ i : Nat, ∀ hi : i < (TPLString.mk [104, 105]).m_string.length,
          ∀ hj : i < (TPLString.mk [104, 105]).m_string.length,
          (TPLString.mk [104, 105]).m_string.get ⟨i, hi⟩
            = (TPLString.mk [104, 105]).m_string.get ⟨i, hj⟩)) ∧
    ((TPLString.mk [104, 105]).isEqualToUTF8String (some [104])
        = true ↔ (TPLString.mk [104, 105]).m_string = [104]) ∧
    ((TPLString.mk [104, 105]).isEqualToStringSt
        (some (TPLString.mk [104, 105]))).2 = TPLString.mk [104, 105] ∧
    ((TPLString.mk [104, 105]).isEqualToUTF8StringSt (some [104])).2
        = TPLString.mk [104, 105] :=
  c2_equality_iff_byte_equal (TPLString.mk [104, 105])
    (TPLString.mk [104, 105]) [104]

/-- **C3.** Constructing from a null input pointer yields an instance equal
to a default-constructed one: empty content, `length() = 0`, and equal to
the empty string; the null pointer is never dereferenced (the null case
is handled by its own branch). -/
theorem c3_null_constructor_is_default :
    TPLString.fromUTF8 none = TPLString.mkEmpty ∧
    (TPLString.fromUTF8 none).length = 0 ∧
    (TPLString.fromUTF8 none).isEqualToUTF8String (some []) = true := by
  refine ⟨rfl, rfl, rfl⟩

/-- **C4.** `length()` of an instance constructed from `s` is the number of
bytes of `s` (the bytes before the terminator), not a decoded character
count, and its state-passing variant leaves the receiver unchanged. -/
theorem c4_length_is_byte_count (s : List Nat) :
    (TPLString.fromUTF8 (some s)).length = s.length ∧
    ((TPLString.fromUTF8 (some s)).lengthSt).2
      = TPLString.fromUTF8 (some s) := by
  exact ⟨rfl, rfl⟩

/-- **C5.** For every instance, `isEqualToString` applied to a null
instance pointer returns `false`. -/
theorem c5_isEqualToString_null_false (a : TPLString) :
    a.isEqualToString none = false := by
  rfl

/-- **C6.** For every instance, `isEqualToUTF8String` applied to a null
byte-sequence pointer returns `false`. -/
theorem c6_isEqualToUTF8String_null_false (a : TPLString) :
    a.isEqualToUTF8String none = false := by
  rfl

/-- **C7.** Copy construction: `b := TPLString(a)` satisfies
`a.isEqualToString(b) = true` and `b.isEqualToString(a) = true`, and `b`
holds its own duplicate of `a`'s content (the structures carry distinct
copies of the byte list; value equality, no sharing of a mutable buffer). -/
theorem c7_copy_construction_equal (a : TPLString) :
    a.isEqualToString (some (TPLString.fromString a)) = true ∧
    (TPLString.fromString a).isEqualToString (some a) = true ∧
    (TPLString.fromString a).m_string = a.m_string := by
  refine ⟨?_, ?_, rfl⟩ <;> simp [TPLString.isEqualToString,
    TPLString.fromString]

/-- **C8.** Default construction yields empty content (not an absent
buffer): `length() = 0` and `isEqualToUTF8String("") = true`. -/
theorem c8_default_is_empty :
    TPLString.mkEmpty.m_string = [] ∧
    TPLString.mkEmpty.length = 0 ∧
    TPLString.mkEmpty.isEqualToUTF8String (some []) = true := by
  refine ⟨rfl, rfl, rfl⟩

/-- **C9.** Immutability frame property: every exposed `const` query
(`UTF8String`, `isEqualToString`, `isEqualToUTF8String`, `length`) leaves
the receiver unchanged, and the content of an instance constructed from
`s` is the sequence fixed at construction, so any interleaving of queries
observes that same content. -/
theorem c9_queries_preserve_content (a : TPLString) (other : Option TPLString)
    (p : Option (List Nat)) (s : List Nat) :
    (a.UTF8StringSt).2 = a ∧
    (a.isEqualToStringSt other).2 = a ∧
    (a.isEqualToUTF8StringSt p).2 = a ∧
    (a.lengthSt).2 = a ∧
    (TPLString.fromUTF8 (some s)).m_string = s := by
  exact ⟨rfl, rfl, rfl, rfl, rfl⟩

/-- **C10.** `isEqualToString` is reflexive and symmetric on instances, and
agrees with `isEqualToUTF8String` applied to the other instance's
`UTF8String()`. -/
theorem c10_equality_equivalence (a b : TPLString) :
    a.isEqualToString (some a) = true ∧
    a.isEqualToString (some b) = b.isEqualToString (some a) ∧
    a.isEqualToString (some b)
      = a.isEqualToUTF8String (some (b.UTF8String)) := by
  refine ⟨?_, ?_, rfl⟩
  · simp [TPLString.isEqualToString]
  · simp only [TPLString.isEqualToString]
    by_cases h : a.m_string = b.m_string
    · rw [h]
    · have h2 : ¬ b.m_string = a.m_string := fun hh => h hh.symm
      simp [h, h2]
